import Mathlib

/-!
A shallow embedding of the rules/verification engine of `mlpstorage`
(`src/mlpstorage/rules.py`): the finding data model, the category-resolution
reduction of `BenchmarkVerifier.verify`, the per-check execution loop of
`RulesChecker.run_checks`, the concrete single-run and multi-run checks, and
the dataset-sizing function `calculate_training_data_size`.

Machine integers are modelled as `Nat`/`Int` (Python integers are unbounded),
Python dictionaries as association lists or structures with `Option` fields
(`dict.get(key, default)` becomes `Option.getD`), raised exceptions as
`Except.error`, and `None` returns as `Option.none`.
-/

namespace MLPStorage

/-- The validation enum `PARAM_VALIDATION` from `mlpstorage.config` (the module
itself is outside `src/`; its three members `CLOSED`, `OPEN`, `INVALID` are
fixed by their uses throughout `rules.py`). -/
inductive PARAM_VALIDATION where
  | CLOSED
  | OPEN
  | INVALID
deriving DecidableEq, Repr

/-- The benchmark-type enum `BENCHMARK_TYPES` from `mlpstorage.config`; the
members `training`, `checkpointing` and `vector_database` are the ones used in
`rules.py`. -/
inductive BENCHMARK_TYPES where
  | training
  | checkpointing
  | vector_database
deriving DecidableEq, Repr

/-- `Issue` dataclass (rules.py lines 24-40): one rule-evaluation outcome.
Python's `expected`/`actual` fields are typed `Any`; the values actually
stored in `rules.py` are strings or values rendered into the textual output,
so they are modelled as `Option String` with numbers rendered via `toString`. -/
structure Issue where
  validation : PARAM_VALIDATION
  message : String
  parameter : Option String := none
  expected : Option String := none
  actual : Option String := none
  severity : String := "error"
deriving DecidableEq, Repr

/-- `ClusterInformation` (rules.py lines 198-237), reduced to its aggregated
data fields consumed by the sizing algorithm and the checks. -/
structure ClusterInformation where
  total_memory_bytes : Nat
  total_cores : Nat
deriving DecidableEq, Repr

/-- The category reduction inside `BenchmarkVerifier.verify` (rules.py lines
810-845): count findings per classification, then `num_invalid > 0` gives
INVALID, else `num_open > 0` gives OPEN, else CLOSED.  (`num_closed` is
counted by the source only for logging and does not affect the result; the
`else: raise ValueError` branch of the counting loop is unreachable because
the classification enum is total here.) -/
def verify_category (issues : List Issue) : PARAM_VALIDATION :=
  let num_invalid := issues.countP (fun i => i.validation == PARAM_VALIDATION.INVALID)
  let num_open := issues.countP (fun i => i.validation == PARAM_VALIDATION.OPEN)
  if num_invalid > 0 then PARAM_VALIDATION.INVALID
  else if num_open > 0 then PARAM_VALIDATION.OPEN
  else PARAM_VALIDATION.CLOSED

/-- The INVALID finding that `RulesChecker.run_checks` (rules.py lines
481-487) creates when a check method raises exception text `e`. -/
def check_error_issue (check_name e : String) : Issue :=
  { validation := PARAM_VALIDATION.INVALID
    message := "Check " ++ check_name ++ " failed with error: " ++ e
    severity := "error" }

/-- A check method's invocation outcome, as consumed by the `run_checks` loop:
either the exception text it raised, or its returned findings.  A Python
return of `None` or `[]` is `Except.ok []` (both are falsy and contribute
nothing), a single `Issue` return is `Except.ok [i]` (appended), and a
non-empty list is extended — all three collapse to appending a list. -/
def check_result_issues : String × Except String (List Issue) → List Issue
  | (_, Except.ok method_issues) => method_issues
  | (check_name, Except.error e) => [check_error_issue check_name e]

/-- `RulesChecker.run_checks` (rules.py lines 469-489): run every check in
order, accumulating findings; a raising check contributes one INVALID finding
instead of propagating. -/
def run_checks (checks : List (String × Except String (List Issue))) : List Issue :=
  checks.foldl (fun issues check => issues ++ check_result_issues check) []

/-- The fixed CLOSED-allowed override keys of
`TrainingRunRulesChecker.check_allowed_params` (rules.py lines 598-601). -/
def closed_allowed_params : List String :=
  ["dataset.num_files_train", "dataset.num_subfolders_train", "dataset.data_folder",
   "reader.read_threads", "reader.computation_threads", "reader.transfer_size",
   "reader.odirect", "reader.prefetch_size", "checkpoint.checkpoint_folder",
   "storage.storage_type", "storage.storage_root"]

/-- The fixed OPEN-allowed override keys of `check_allowed_params`
(rules.py line 602). -/
def open_allowed_params : List String :=
  ["framework", "dataset.format", "dataset.num_samples_per_file", "reader.data_loader"]

/-- The finding `check_allowed_params` appends for one non-exempt override
entry `param = value` (rules.py lines 609-630). -/
def allowed_param_issue (param value : String) : Issue :=
  if closed_allowed_params.contains param then
    { validation := PARAM_VALIDATION.CLOSED
      message := "Closed parameter override allowed: " ++ param ++ " = " ++ value
      parameter := some "Overrode Parameters"
      actual := some value }
  else if open_allowed_params.contains param then
    { validation := PARAM_VALIDATION.OPEN
      message := "Open parameter override allowed: " ++ param ++ " = " ++ value
      parameter := some "Overrode Parameters"
      actual := some value }
  else
    { validation := PARAM_VALIDATION.INVALID
      message := "Disallowed parameter override: " ++ param ++ " = " ++ value
      parameter := some "Overrode Parameters"
      expected := some "None"
      actual := some value }

/-- `TrainingRunRulesChecker.check_allowed_params` (rules.py lines 589-631):
iterate over the override-parameter map (modelled as an association list in
dict order), skip keys starting with `workflow`, and append one finding per
remaining entry according to the fixed allow-lists. -/
def check_allowed_params (override_parameters : List (String × String)) : List Issue :=
  override_parameters.foldl
    (fun issues pv =>
      if pv.1.startsWith "workflow" then issues
      else issues ++ [allowed_param_issue pv.1 pv.2])
    []

/-- Spec-side restatement of the override classification: an exempt key
(prefix `workflow`) yields no finding, any other key yields exactly the one
finding dictated by allow-list membership. -/
def classify_override (pv : String × String) : Option Issue :=
  if pv.1.startsWith "workflow" then none
  else some (allowed_param_issue pv.1 pv.2)

/-- The manual-override argument namespace consumed by
`calculate_training_data_size` (rules.py lines 879-890).  Optional numeric
arguments are `Option Nat`; Python truthiness of such an argument is
"present and non-zero".  The field `clienthost_host_memory_in_gb` reproduces
the attribute name used verbatim on line 885 of the source. -/
structure DatasizeArgs where
  client_host_memory_in_gb : Option Nat
  num_client_hosts : Option Nat
  clienthost_host_memory_in_gb : Option Nat
  hosts : List String
  num_processes : Nat
deriving DecidableEq, Repr

/-- Python truthiness of an optional integer: `None` and `0` are falsy. -/
def truthyNat : Option Nat → Bool
  | none => false
  | some n => n != 0

/-- `calculate_training_data_size` (rules.py lines 848-918).  Dataset and
reader parameters are passed as the numeric values the source reads out of
its parameter dictionaries (`num_samples_per_file`, `record_length_bytes`,
`batch_size`).  Python's `//` on non-negative integers is `Nat` division;
a zero `file_size_bytes` raises `ZeroDivisionError` in the source, modelled
as `Except.error`.  The second tuple component, `required_subfolders_count`,
is initialised to 0 and never changed by the source. -/
def calculate_training_data_size (args : Option DatasizeArgs)
    (cluster_information : ClusterInformation)
    (num_samples_per_file record_length_bytes batch_size num_processes : Nat) :
    Except String (Nat × Nat × Nat) :=
  let required_subfolders_count := 0
  let mem : Except String (Nat × Nat) :=
    match args with
    | none => Except.ok (cluster_information.total_memory_bytes, num_processes)
    | some a =>
      if truthyNat a.client_host_memory_in_gb && truthyNat a.num_client_hosts then
        Except.ok (a.client_host_memory_in_gb.getD 0 * 1024 * 1024 * 1024
                     * a.num_client_hosts.getD 0,
                   a.num_processes)
      else if truthyNat a.clienthost_host_memory_in_gb && !truthyNat a.num_client_hosts then
        Except.ok (a.clienthost_host_memory_in_gb.getD 0 * 1024 * 1024 * 1024
                     * a.hosts.length,
                   a.num_processes)
      else
        Except.error "Either args or cluster_information is required"
  match mem with
  | Except.error e => Except.error e
  | Except.ok (total_mem_bytes, nproc) =>
    let dataset_size_bytes := 5 * total_mem_bytes
    let file_size_bytes := num_samples_per_file * record_length_bytes
    if file_size_bytes = 0 then
      Except.error "ZeroDivisionError: integer division or modulo by zero"
    else
      let min_num_files_by_bytes := dataset_size_bytes / file_size_bytes
      let min_samples := 500 * nproc * batch_size
      let min_num_files_by_samples := min_samples / num_samples_per_file
      let required_file_count := max min_num_files_by_bytes min_num_files_by_samples
      let total_disk_bytes := required_file_count * file_size_bytes
      Except.ok (required_file_count, required_subfolders_count, total_disk_bytes)

/-- The `dataset` parameter sub-map of a run, holding the keys read by the
training checks and the sizing algorithm; a key absent from the Python dict
is `none`. -/
structure DatasetParams where
  num_files_train : Option Int := none
  num_samples_per_file : Option Nat := none
  record_length_bytes : Option Nat := none
deriving DecidableEq, Repr

/-- The `reader` parameter sub-map of a run. -/
structure ReaderParams where
  batch_size : Option Nat := none
  odirect : Option Bool := none
deriving DecidableEq, Repr

/-- The `checkpoint` parameter sub-map of a run. -/
structure CheckpointParams where
  num_checkpoints_read : Option Nat := none
  num_checkpoints_write : Option Nat := none
deriving DecidableEq, Repr

/-- The effective parameter map of a run (`BenchmarkRun.parameters`), reduced
to the sub-maps the checks read; the `workflow` sub-map is an association
list in dict order. -/
structure RunParameters where
  dataset : Option DatasetParams := none
  reader : Option ReaderParams := none
  workflow : List (String × Bool) := []
  checkpoint : Option CheckpointParams := none
deriving DecidableEq, Repr

/-- `BenchmarkRun` (rules.py lines 297-454), reduced to the data fields the
verification engine reads and writes: identity and parameter fields,
override parameters as an association list, cluster information, and the
mutable `category`/`issues` slots written back by the Verifier. -/
structure BenchmarkRun where
  benchmark_type : BENCHMARK_TYPES
  model : String := ""
  command : String := ""
  num_processes : Nat := 0
  parameters : RunParameters := {}
  override_parameters : List (String × String) := []
  system_info : ClusterInformation := ⟨0, 0⟩
  category : Option PARAM_VALIDATION := none
  issues : List Issue := []
deriving DecidableEq, Repr

/-- The source-dispatch guard of `BenchmarkRun.__init__` (rules.py lines
302-309, 329-337): `ValueError` when neither source is given, `ValueError`
when both are given, otherwise populate from the single provided source.
The two population paths (`_process_benchmark_instance`,
`_process_benchmark_result`) are abstracted as the function arguments,
which may themselves fail. -/
def benchmarkRun_init {α β γ : Type} (process_result : α → Except String γ)
    (process_instance : β → Except String γ)
    (benchmark_result : Option α) (benchmark_instance : Option β) : Except String γ :=
  match benchmark_result, benchmark_instance with
  | none, none =>
    Except.error "Either benchmark_result or benchmark_instance must be provided"
  | some _, some _ =>
    Except.error "Only one of benchmark_result and benchmark_instance can be provided"
  | none, some i => process_instance i
  | some r, none => process_result r

/-- `run.parameters.get('checkpoint', {}).get('num_checkpoints_write', 0)`
(rules.py line 708): 0 when the `checkpoint` sub-map or the key is missing. -/
def run_num_checkpoints_write (run : BenchmarkRun) : Nat :=
  (run.parameters.checkpoint.bind (fun c => c.num_checkpoints_write)).getD 0

/-- `run.parameters.get('checkpoint', {}).get('num_checkpoints_read', 0)`
(rules.py line 709). -/
def run_num_checkpoints_read (run : BenchmarkRun) : Nat :=
  (run.parameters.checkpoint.bind (fun c => c.num_checkpoints_read)).getD 0

/-- The per-metric read finding of `check_num_runs` (rules.py lines 711-726):
CLOSED when the total is exactly 10, INVALID carrying the observed total
otherwise. -/
def num_reads_issue (n : Nat) : Issue :=
  if n = 10 then
    { validation := PARAM_VALIDATION.CLOSED
      message := "Found expected 10 total read operations"
      parameter := some "checkpoint.num_checkpoints_read"
      expected := some "10", actual := some (toString n) }
  else
    { validation := PARAM_VALIDATION.INVALID
      message := "Expected 10 total read operations, but found " ++ toString n
      parameter := some "checkpoint.num_checkpoints_read"
      expected := some "10", actual := some (toString n) }

/-- The per-metric write finding of `check_num_runs` (rules.py lines
728-743). -/
def num_writes_issue (n : Nat) : Issue :=
  if n = 10 then
    { validation := PARAM_VALIDATION.CLOSED
      message := "Found expected 10 total write operations"
      parameter := some "checkpoint.num_checkpoints_write"
      expected := some "10", actual := some (toString n) }
  else
    { validation := PARAM_VALIDATION.INVALID
      message := "Expected 10 total write operations, but found " ++ toString n
      parameter := some "checkpoint.num_checkpoints_write"
      expected := some "10", actual := some (toString n) }

/-- The combined finding of `check_num_runs` (rules.py lines 745-752), added
exactly when both totals equal 10. -/
def combined_runs_issue : Issue :=
  { validation := PARAM_VALIDATION.CLOSED
    message := "Found expected 10 total read and write operations"
    parameter := some "checkpoint.num_checkpoints_read"
    expected := some "10", actual := some "10" }

/-- `CheckpointSubmissionRulesChecker.check_num_runs` (rules.py lines
698-754): sum the read and write checkpoint counts over the checkpointing
runs of the submission, then emit the read finding, the write finding, and —
when both totals are 10 — the combined CLOSED finding. -/
def check_num_runs (runs : List BenchmarkRun) : List Issue :=
  let num_writes := runs.foldl
    (fun acc run =>
      if run.benchmark_type == BENCHMARK_TYPES.checkpointing then
        acc + run_num_checkpoints_write run
      else acc) 0
  let num_reads := runs.foldl
    (fun acc run =>
      if run.benchmark_type == BENCHMARK_TYPES.checkpointing then
        acc + run_num_checkpoints_read run
      else acc) 0
  [num_reads_issue num_reads, num_writes_issue num_writes]
    ++ (if num_writes = 10 ∧ num_reads = 10 then [combined_runs_issue] else [])

/-- `cat.value.upper()` for a resolved category (rules.py lines 519, 527,
535). -/
def cat_value_upper : PARAM_VALIDATION → String
  | PARAM_VALIDATION.OPEN => "OPEN"
  | PARAM_VALIDATION.CLOSED => "CLOSED"
  | PARAM_VALIDATION.INVALID => "INVALID"

/-- The list comprehension `[cat.value.upper() for cat in category_set]`: an
unresolved (`None`) category in the set raises `AttributeError` in the
source, modelled as `Except.error`.  (The original Python message quotes
NoneType and value; the quote characters are elided here.) -/
def set_value_upper : List (Option PARAM_VALIDATION) → Except String (List String)
  | [] => Except.ok []
  | none :: _ => Except.error "AttributeError: NoneType object has no attribute value"
  | some c :: rest =>
    match set_value_upper rest with
    | Except.error e => Except.error e
    | Except.ok l => Except.ok (cat_value_upper c :: l)

/-- `MultiRunRulesChecker.check_runs_valid` (rules.py lines 511-537): build
the set of run categories, then INVALID in the set gives an INVALID finding,
else OPEN in the set gives an OPEN finding, else a set equal to `{CLOSED}`
gives a CLOSED finding, else no finding.  Python's unordered set is modelled
as the first-occurrence `dedup` of the category list (membership and
equality-to-a-singleton agree with set semantics; only the rendering order of
the `actual` field depends on the choice, and Python leaves that order
unspecified). -/
def check_runs_valid (runs : List BenchmarkRun) : Except String (Option Issue) :=
  let category_set := (runs.map (fun run => run.category)).dedup
  if category_set.contains (some PARAM_VALIDATION.INVALID) then
    match set_value_upper category_set with
    | Except.error e => Except.error e
    | Except.ok rendered =>
      Except.ok (some
        { validation := PARAM_VALIDATION.INVALID
          message := "Invalid runs found."
          parameter := some "category"
          expected := some "OPEN or CLOSED"
          actual := some (toString rendered) })
  else if category_set.contains (some PARAM_VALIDATION.OPEN) then
    match set_value_upper category_set with
    | Except.error e => Except.error e
    | Except.ok rendered =>
      Except.ok (some
        { validation := PARAM_VALIDATION.OPEN
          message := "All runs satisfy the OPEN or CLOSED category"
          parameter := some "category"
          expected := some "OPEN or CLOSED"
          actual := some (toString rendered) })
  else if category_set = [some PARAM_VALIDATION.CLOSED] then
    match set_value_upper category_set with
    | Except.error e => Except.error e
    | Except.ok rendered =>
      Except.ok (some
        { validation := PARAM_VALIDATION.CLOSED
          message := "All runs satisfy the CLOSED category"
          parameter := some "category"
          expected := some "OPEN or CLOSED"
          actual := some (toString rendered) })
  else
    Except.ok none

/-- Modelled from the spec: the `UNET` model-name constant imported from
`mlpstorage.config` (the module is outside `src/`); the designated 3-D
image-segmentation model.  No claim depends on its concrete value. -/
def UNET : String := "unet3d"

/-- Python `str` of a `BENCHMARK_TYPES` member. -/
def bt_str : BENCHMARK_TYPES → String
  | BENCHMARK_TYPES.training => "BENCHMARK_TYPES.training"
  | BENCHMARK_TYPES.checkpointing => "BENCHMARK_TYPES.checkpointing"
  | BENCHMARK_TYPES.vector_database => "BENCHMARK_TYPES.vector_database"

/-- `TrainingRunRulesChecker.check_benchmark_type` (rules.py lines 543-552). -/
def check_benchmark_type_training (run : BenchmarkRun) : Option Issue :=
  if run.benchmark_type != BENCHMARK_TYPES.training then
    some { validation := PARAM_VALIDATION.INVALID
           message := "Invalid benchmark type: " ++ bt_str run.benchmark_type
           parameter := some "benchmark_type"
           expected := some (bt_str BENCHMARK_TYPES.training)
           actual := some (bt_str run.benchmark_type) }
  else none

/-- `TrainingRunRulesChecker.check_num_files_train` (rules.py lines 554-587):
missing `dataset` or `dataset.num_files_train` yields an INVALID finding;
a missing `reader` sub-map or missing sizing keys raises `KeyError` in the
source (caught by `run_checks`), modelled as `Except.error`; otherwise the
configured file count is compared against the sizing algorithm. -/
def check_num_files_train (run : BenchmarkRun) : Except String (List Issue) :=
  match run.parameters.dataset with
  | none => Except.ok [{ validation := PARAM_VALIDATION.INVALID
                         message := "Missing dataset parameters"
                         parameter := some "dataset" }]
  | some dataset_params =>
    match dataset_params.num_files_train with
    | none => Except.ok [{ validation := PARAM_VALIDATION.INVALID
                           message := "Missing num_files_train parameter"
                           parameter := some "dataset.num_files_train" }]
    | some configured_num_files =>
      match run.parameters.reader with
      | none => Except.error "KeyError: reader"
      | some reader_params =>
        match dataset_params.num_samples_per_file with
        | none => Except.error "KeyError: num_samples_per_file"
        | some num_samples_per_file =>
          match dataset_params.record_length_bytes with
          | none => Except.error "KeyError: record_length_bytes"
          | some record_length_bytes =>
            match reader_params.batch_size with
            | none => Except.error "KeyError: batch_size"
            | some batch_size =>
              match calculate_training_data_size none run.system_info
                  num_samples_per_file record_length_bytes batch_size
                  run.num_processes with
              | Except.error e => Except.error e
              | Except.ok (required_num_files, _, _) =>
                if configured_num_files < (required_num_files : Int) then
                  Except.ok [{ validation := PARAM_VALIDATION.INVALID
                               message := "Insufficient number of training files"
                               parameter := some "dataset.num_files_train"
                               expected := some (">= " ++ toString required_num_files)
                               actual := some (toString configured_num_files) }]
                else Except.ok []

/-- The loop body of `TrainingRunRulesChecker.check_workflow_parameters`
(rules.py lines 633-657), returning at the first `checkpoint` entry when the
run is the designated model executing `run_benchmark`.  (Apostrophes of the
original Python messages are elided; the CLOSED-branch message reproduces the
source typo `checkpoing`.) -/
def check_workflow_parameters_go (model command : String) :
    List (String × Bool) → Option Issue
  | [] => none
  | (param, value) :: rest =>
    if model == UNET && command == "run_benchmark" then
      if param == "checkpoint" then
        if value then
          some { validation := PARAM_VALIDATION.CLOSED
                 message := "Unet3D training requires executing a checkpoing"
                 parameter := some "workflow.checkpoint"
                 expected := some "True", actual := some "True" }
        else
          some { validation := PARAM_VALIDATION.INVALID
                 message := "Unet3D training requires executing a checkpoint. The parameter workflow.checkpoint is set to False"
                 parameter := some "workflow.checkpoint"
                 expected := some "True", actual := some "False" }
      else check_workflow_parameters_go model command rest
    else check_workflow_parameters_go model command rest

/-- `TrainingRunRulesChecker.check_workflow_parameters`. -/
def check_workflow_parameters (run : BenchmarkRun) : Option Issue :=
  check_workflow_parameters_go run.model run.command run.parameters.workflow

/-- Truthiness of `parameters.get('reader', {}).get('odirect')`
(rules.py line 661). -/
def run_reader_odirect (run : BenchmarkRun) : Bool :=
  (run.parameters.reader.bind (fun r => r.odirect)).getD false

/-- `TrainingRunRulesChecker.check_odirect_supported_model` (rules.py lines
659-670). -/
def check_odirect_supported_model (run : BenchmarkRun) : Option Issue :=
  if run.model != UNET && run_reader_odirect run then
    some { validation := PARAM_VALIDATION.INVALID
           message := "The reader.odirect option is only supported for Unet3d model"
           parameter := some "reader.odirect"
           expected := some "False"
           actual := some (toString (run_reader_odirect run)) }
  else none

/-- A Python check returning `Optional[Issue]`, as the `run_checks` loop
consumes it: `None` contributes nothing, a single `Issue` is appended. -/
def optIssues : Option Issue → List Issue
  | none => []
  | some i => [i]

/-- The check methods of `TrainingRunRulesChecker`, in the alphabetical order
produced by the `dir()`-based discovery of `RulesChecker.__init__` (rules.py
lines 466-467).  `check_checkpoint_files_in_code`, `check_num_epochs`,
`check_inter_test_times` and `check_file_system_caching` are unimplemented
stubs returning `None` (rules.py lines 672-682). -/
def training_run_named_checks (run : BenchmarkRun) :
    List (String × Except String (List Issue)) :=
  [("check_allowed_params", Except.ok (check_allowed_params run.override_parameters)),
   ("check_benchmark_type", Except.ok (optIssues (check_benchmark_type_training run))),
   ("check_checkpoint_files_in_code", Except.ok []),
   ("check_file_system_caching", Except.ok []),
   ("check_inter_test_times", Except.ok []),
   ("check_num_epochs", Except.ok []),
   ("check_num_files_train", check_num_files_train run),
   ("check_odirect_supported_model", Except.ok (optIssues (check_odirect_supported_model run))),
   ("check_workflow_parameters", Except.ok (optIssues (check_workflow_parameters run)))]

/-- The check methods of `CheckpointingRunRulesChecker` (rules.py lines
685-688): the single stub `check_benchmark_type`, whose body is `pass`
(returns `None`, hence no findings). -/
def checkpointing_run_named_checks (_run : BenchmarkRun) :
    List (String × Except String (List Issue)) :=
  [("check_benchmark_type", Except.ok [])]

/-- Checker selection of `BenchmarkVerifier.__init__` in single mode
(rules.py lines 786-790): training and checkpointing pick their single-run
checkers; any other benchmark type leaves `rules_checker` unset, so the later
`verify` call raises `AttributeError`, modelled as `Except.error`. -/
def single_run_named_checks (run : BenchmarkRun) :
    Except String (List (String × Except String (List Issue))) :=
  match run.benchmark_type with
  | BENCHMARK_TYPES.training => Except.ok (training_run_named_checks run)
  | BENCHMARK_TYPES.checkpointing => Except.ok (checkpointing_run_named_checks run)
  | BENCHMARK_TYPES.vector_database =>
    Except.error "AttributeError: BenchmarkVerifier object has no attribute rules_checker"

/-- `BenchmarkVerifier.verify` in single mode (rules.py lines 804-845): run
every check of the selected checker, reduce the findings to one category by
`verify_category`, write the finding list and the category back onto the run,
and return the category. -/
def verify_single (run : BenchmarkRun) :
    Except String (PARAM_VALIDATION × BenchmarkRun) :=
  match single_run_named_checks run with
  | Except.error e => Except.error e
  | Except.ok checks =>
    let issues := run_checks checks
    let category := verify_category issues
    Except.ok (category, { run with issues := issues, category := some category })

/-- C1: `BenchmarkVerifier.verify` resolves exactly one category from the
finding list by fixed precedence: if any finding is INVALID the result is
INVALID; otherwise if any finding is OPEN the result is OPEN; otherwise
(including the empty list) the result is CLOSED. -/
theorem verify_category_precedence (issues : List Issue) :
    verify_category issues =
      (if issues.any (fun i => i.validation == PARAM_VALIDATION.INVALID) then
        PARAM_VALIDATION.INVALID
      else if issues.any (fun i => i.validation == PARAM_VALIDATION.OPEN) then
        PARAM_VALIDATION.OPEN
      else PARAM_VALIDATION.CLOSED) := by
  unfold verify_category
  cases h1 : issues.any (fun i => i.validation == PARAM_VALIDATION.INVALID) with
  | false =>
    have hz1 : issues.countP (fun i => i.validation == PARAM_VALIDATION.INVALID) = 0 := by
      rw [List.countP_eq_zero]
      intro a ha
      have := List.any_eq_false.mp h1 a ha
      simpa using this
    cases h2 : issues.any (fun i => i.validation == PARAM_VALIDATION.OPEN) with
    | false =>
      have hz2 : issues.countP (fun i => i.validation == PARAM_VALIDATION.OPEN) = 0 := by
        rw [List.countP_eq_zero]
        intro a ha
        have := List.any_eq_false.mp h2 a ha
        simpa using this
      simp [hz1, hz2]
    | true =>
      have hp2 : 0 < issues.countP (fun i => i.validation == PARAM_VALIDATION.OPEN) := by
        rw [List.countP_pos_iff]
        obtain ⟨a, ha, hpa⟩ := List.any_eq_true.mp h2
        exact ⟨a, ha, hpa⟩
      simp [hz1, hp2]
  | true =>
    have hp1 : 0 < issues.countP (fun i => i.validation == PARAM_VALIDATION.INVALID) := by
      rw [List.countP_pos_iff]
      obtain ⟨a, ha, hpa⟩ := List.any_eq_true.mp h1
      exact ⟨a, ha, hpa⟩
    simp [hp1]

theorem run_checks_foldl_acc (checks : List (String × Except String (List Issue)))
    (acc : List Issue) :
    checks.foldl (fun issues check => issues ++ check_result_issues check) acc
      = acc ++ checks.flatMap check_result_issues := by
  induction checks generalizing acc with
  | nil => simp
  | cons c rest ih =>
    simp only [List.foldl_cons, List.flatMap_cons]
    rw [ih]
    simp [List.append_assoc]

theorem run_checks_eq_flatMap (checks : List (String × Except String (List Issue))) :
    run_checks checks = checks.flatMap check_result_issues := by
  unfold run_checks
  simpa using run_checks_foldl_acc checks []

/-- C3: a check that raises does not propagate and does not stop the other
checks: `run_checks` converts it into the single INVALID finding
`check_error_issue`, whose message names the failing check and contains the
error text, while the findings of every check before and after it are
collected unchanged. -/
theorem run_checks_isolates_check_errors
    (pre post : List (String × Except String (List Issue))) (check_name e : String) :
    run_checks (pre ++ (check_name, Except.error e) :: post)
        = run_checks pre ++ [check_error_issue check_name e] ++ run_checks post
      ∧ (check_error_issue check_name e).validation = PARAM_VALIDATION.INVALID
      ∧ (check_error_issue check_name e).message
          = "Check " ++ check_name ++ " failed with error: " ++ e := by
  refine ⟨?_, rfl, rfl⟩
  simp [run_checks_eq_flatMap, check_result_issues]

theorem check_allowed_params_foldl_acc (ov : List (String × String)) (acc : List Issue) :
    ov.foldl
        (fun issues pv =>
          if pv.1.startsWith "workflow" then issues
          else issues ++ [allowed_param_issue pv.1 pv.2])
        acc
      = acc ++ ov.filterMap classify_override := by
  induction ov generalizing acc with
  | nil => simp
  | cons pv rest ih =>
    simp only [List.foldl_cons, List.filterMap_cons, classify_override]
    by_cases h : pv.1.startsWith "workflow"
    · simp [h, ih]
    · simp [h, ih, List.append_assoc]

/-- C4: the override allow-list check classifies each override key by fixed
membership — keys in the CLOSED-allowed list give a CLOSED finding, keys in
the OPEN-allowed list an OPEN finding, every other key an INVALID finding
naming that key with expected `"None"`; keys starting with `workflow` are
exempt and give no finding; every non-exempt override gives exactly one
finding. -/
theorem check_allowed_params_classifies (ov : List (String × String)) :
    check_allowed_params ov = ov.filterMap classify_override
      ∧ (∀ p v, (classify_override (p, v)).isSome = !(p.startsWith "workflow"))
      ∧ (∀ p v, ¬ p.startsWith "workflow" →
          classify_override (p, v) = some (allowed_param_issue p v)
          ∧ (allowed_param_issue p v).validation =
              (if closed_allowed_params.contains p then PARAM_VALIDATION.CLOSED
               else if open_allowed_params.contains p then PARAM_VALIDATION.OPEN
               else PARAM_VALIDATION.INVALID)
          ∧ (¬ closed_allowed_params.contains p → ¬ open_allowed_params.contains p →
              (allowed_param_issue p v).expected = some "None"
              ∧ (allowed_param_issue p v).message
                  = "Disallowed parameter override: " ++ p ++ " = " ++ v)) := by
  refine ⟨?_, ?_, ?_⟩
  · unfold check_allowed_params
    simpa using check_allowed_params_foldl_acc ov []
  · intro p v
    by_cases h : (p.startsWith "workflow") = true
    · simp [classify_override, h]
    · simp [classify_override, h]
  · intro p v hp
    refine ⟨by simp [classify_override, hp], ?_, ?_⟩
    · unfold allowed_param_issue
      by_cases hc : p ∈ closed_allowed_params
      · simp [hc]
      · by_cases ho : p ∈ open_allowed_params
        · simp [hc, ho]
        · simp [hc, ho]
    · intro hc ho
      have hc' : p ∉ closed_allowed_params := by simpa using hc
      have ho' : p ∉ open_allowed_params := by simpa using ho
      unfold allowed_param_issue
      simp [hc', ho']

theorem check_allowed_params_classifies_witness :
    check_allowed_params [("foo", "1")] = [("foo", "1")].filterMap classify_override
      ∧ (allowed_param_issue "foo" "1").expected = some "None" :=
  ⟨(check_allowed_params_classifies [("foo", "1")]).1,
   (((check_allowed_params_classifies [("foo", "1")]).2.2 "foo" "1"
      (by decide)).2.2 (by decide) (by decide)).1⟩

theorem calculate_training_data_size_cluster_eq (M C S R B P : Nat) (h : S * R ≠ 0) :
    calculate_training_data_size none ⟨M, C⟩ S R B P
      = Except.ok (max (5 * M / (S * R)) (500 * P * B / S), 0,
          max (5 * M / (S * R)) (500 * P * B / S) * (S * R)) := by
  unfold calculate_training_data_size
  simp [h]

/-- C2: on measured cluster information with total memory `M`, sample count
`S`, record length `R`, batch size `B` and process count `P` (`S`, `R`
positive), the sizing algorithm returns
`requiredFileCount = max (5*M/(S*R)) (500*P*B/S)`,
`totalDiskBytes = requiredFileCount * S * R`, and a required subfolder count
of zero. -/
theorem calculate_training_data_size_formula (M C S R B P : Nat)
    (hS : 0 < S) (hR : 0 < R) :
    calculate_training_data_size none ⟨M, C⟩ S R B P
      = Except.ok (max (5 * M / (S * R)) (500 * P * B / S), 0,
          max (5 * M / (S * R)) (500 * P * B / S) * (S * R)) :=
  calculate_training_data_size_cluster_eq M C S R B P
    (Nat.mul_ne_zero hS.ne' hR.ne')

theorem calculate_training_data_size_formula_witness :
    calculate_training_data_size none ⟨1, 0⟩ 1 1 1 1
      = Except.ok (max (5 * 1 / (1 * 1)) (500 * 1 * 1 / 1), 0,
          max (5 * 1 / (1 * 1)) (500 * 1 * 1 / 1) * (1 * 1)) :=
  calculate_training_data_size_formula 1 0 1 1 1 1 (by decide) (by decide)

/-- C8 counterexample: at total memory `2^40` bytes, `samplesPerFile = 1000`,
`recordLengthBytes = 100000`, `batchSize = 32`, `processCount = 8`, the
size-driven minimum is `5 * 2^40 / (1000 * 100000) = 54975`, not `58982`,
and the function returns 54975 required files. -/
theorem sizing_scenario_counterexample :
    calculate_training_data_size none ⟨1099511627776, 0⟩ 1000 100000 32 8
        = Except.ok (54975, 0, 5497500000000)
      ∧ 5 * 1099511627776 / (1000 * 100000) = 54975
      ∧ (54975 : Nat) ≠ 58982 := by
  refine ⟨?_, by norm_num, by decide⟩
  rw [calculate_training_data_size_cluster_eq 1099511627776 0 1000 100000 32 8 (by norm_num)]
  norm_num

/-- C8 (amended): at total memory `2^40` bytes (1 TiB), `samplesPerFile =
1000`, `recordLengthBytes = 100000`, `batchSize = 32`, `processCount = 8`,
the size-driven minimum is `floor(5 * 2^40 / (1000 * 100000)) = 54975`
files, the step-driven minimum is `floor(500 * 8 * 32 / 1000) = 128` files,
and the returned `requiredFileCount` is 54975 (size-driven). -/
theorem sizing_scenario_amended :
    5 * 2 ^ 40 / (1000 * 100000) = 54975
      ∧ 500 * 8 * 32 / 1000 = 128
      ∧ calculate_training_data_size none ⟨2 ^ 40, 0⟩ 1000 100000 32 8
          = Except.ok (54975, 0, 5497500000000) := by
  refine ⟨by norm_num, by norm_num, ?_⟩
  rw [calculate_training_data_size_cluster_eq (2 ^ 40) 0 1000 100000 32 8 (by norm_num)]
  norm_num

/-- C9: the sizing algorithm is monotonic — with sample count and record
length fixed (and positive), increasing the total cluster memory, the batch
size, or the process count never decreases the returned
`requiredFileCount`. -/
theorem calculate_training_data_size_monotone
    (M M' C C' S R B B' P P' : Nat) (hS : 0 < S) (hR : 0 < R)
    (hM : M ≤ M') (hB : B ≤ B') (hP : P ≤ P') :
    ∃ n n' sub sub' d d',
      calculate_training_data_size none ⟨M, C⟩ S R B P = Except.ok (n, sub, d)
      ∧ calculate_training_data_size none ⟨M', C'⟩ S R B' P' = Except.ok (n', sub', d')
      ∧ n ≤ n' := by
  have h : S * R ≠ 0 := Nat.mul_ne_zero hS.ne' hR.ne'
  refine ⟨_, _, _, _, _, _,
    calculate_training_data_size_cluster_eq M C S R B P h,
    calculate_training_data_size_cluster_eq M' C' S R B' P' h, ?_⟩
  apply max_le_max
  · exact Nat.div_le_div_right (Nat.mul_le_mul_left 5 hM)
  · exact Nat.div_le_div_right (Nat.mul_le_mul (Nat.mul_le_mul_left 500 hP) hB)

theorem calculate_training_data_size_monotone_witness :
    ∃ n n' sub sub' d d',
      calculate_training_data_size none ⟨1, 0⟩ 1 1 1 1 = Except.ok (n, sub, d)
      ∧ calculate_training_data_size none ⟨2, 0⟩ 1 1 2 3 = Except.ok (n', sub', d')
      ∧ n ≤ n' :=
  calculate_training_data_size_monotone 1 2 0 0 1 1 1 2 1 3
    (by decide) (by decide) (by decide) (by decide) (by decide)

/-- C6: constructing a `BenchmarkRun` fails with an argument error when both
sources are supplied and when neither is supplied; construction can succeed
only when exactly one of the two sources is given. -/
theorem benchmarkRun_init_source_exclusivity {α β γ : Type}
    (process_result : α → Except String γ) (process_instance : β → Except String γ) :
    benchmarkRun_init process_result process_instance (none : Option α) (none : Option β)
        = Except.error "Either benchmark_result or benchmark_instance must be provided"
      ∧ (∀ (r : α) (i : β),
          benchmarkRun_init process_result process_instance (some r) (some i)
            = Except.error "Only one of benchmark_result and benchmark_instance can be provided")
      ∧ (∀ (r : Option α) (i : Option β) (x : γ),
          benchmarkRun_init process_result process_instance r i = Except.ok x →
          (r.isSome ∧ i = none) ∨ (r = none ∧ i.isSome)) := by
  refine ⟨rfl, fun r i => rfl, ?_⟩
  intro r i x h
  cases r <;> cases i <;> simp_all [benchmarkRun_init]

theorem benchmarkRun_init_source_exclusivity_witness :
    ((some 0 : Option Nat).isSome ∧ (none : Option Nat) = none)
      ∨ ((some 0 : Option Nat) = none ∧ (none : Option Nat).isSome) :=
  (benchmarkRun_init_source_exclusivity
    (fun n : Nat => Except.ok n) (fun n : Nat => Except.ok n)).2.2 (some 0) none 0 rfl

theorem foldl_if_filter_sum {α : Type} (p : α → Bool) (f : α → Nat)
    (l : List α) (acc : Nat) :
    l.foldl (fun a x => if p x then a + f x else a) acc
      = acc + ((l.filter p).map f).sum := by
  induction l generalizing acc with
  | nil => simp
  | cons x rest ih =>
    by_cases h : p x
    · simp [h, ih, Nat.add_assoc]
    · simp [h, ih]

/-- C5: the checkpoint run-count check sums `checkpoint.num_checkpoints_read`
and `checkpoint.num_checkpoints_write` across the checkpointing runs of the
submission (missing parameters counting as 0) and emits one finding per
metric — CLOSED when the sum is exactly 10, INVALID carrying the observed sum
otherwise — plus one additional combined CLOSED finding exactly when both
sums equal 10. -/
theorem check_num_runs_sums_and_findings (runs : List BenchmarkRun) :
    (check_num_runs runs =
      (let reads := ((runs.filter
          (fun run => run.benchmark_type == BENCHMARK_TYPES.checkpointing)).map
            run_num_checkpoints_read).sum
       let writes := ((runs.filter
          (fun run => run.benchmark_type == BENCHMARK_TYPES.checkpointing)).map
            run_num_checkpoints_write).sum
       [num_reads_issue reads, num_writes_issue writes]
         ++ (if writes = 10 ∧ reads = 10 then [combined_runs_issue] else [])))
      ∧ (∀ n, (num_reads_issue n).validation
            = (if n = 10 then PARAM_VALIDATION.CLOSED else PARAM_VALIDATION.INVALID)
          ∧ (num_reads_issue n).actual = some (toString n))
      ∧ (∀ n, (num_writes_issue n).validation
            = (if n = 10 then PARAM_VALIDATION.CLOSED else PARAM_VALIDATION.INVALID)
          ∧ (num_writes_issue n).actual = some (toString n))
      ∧ combined_runs_issue.validation = PARAM_VALIDATION.CLOSED := by
  refine ⟨?_, ?_, ?_, rfl⟩
  · unfold check_num_runs
    rw [foldl_if_filter_sum, foldl_if_filter_sum]
    simp
  · intro n
    unfold num_reads_issue
    by_cases h : n = 10 <;> simp [h]
  · intro n
    unfold num_writes_issue
    by_cases h : n = 10 <;> simp [h]

theorem set_value_upper_ok (l : List (Option PARAM_VALIDATION))
    (h : ∀ c ∈ l, c ≠ none) : ∃ s, set_value_upper l = Except.ok s := by
  induction l with
  | nil => exact ⟨[], rfl⟩
  | cons c rest ih =>
    cases c with
    | none => exact absurd rfl (h none (List.mem_cons_self _ _))
    | some v =>
      obtain ⟨s, hs⟩ := ih (fun x hx => h x (List.mem_cons_of_mem _ hx))
      exact ⟨cat_value_upper v :: s, by simp [set_value_upper, hs]⟩

theorem dedup_of_all_eq {α : Type} [DecidableEq α] (l : List α) (a : α) :
    l ≠ [] → (∀ x ∈ l, x = a) → l.dedup = [a] := by
  induction l with
  | nil => intro hne _; exact absurd rfl hne
  | cons x rest ih =>
    intro _ hall
    have hx : x = a := hall x (List.mem_cons_self _ _)
    rcases eq_or_ne rest [] with h | h
    · subst h; subst hx; simp
    · have hrest : rest.dedup = [a] :=
        ih h (fun z hz => hall z (List.mem_cons_of_mem _ hz))
      have hmem : x ∈ rest := by
        subst hx
        have ha : x ∈ rest.dedup := by rw [hrest]; exact List.mem_cons_self _ _
        exact List.mem_dedup.mp ha
      rw [List.dedup_cons_of_mem hmem, hrest]

/-- C7: for a non-empty submission whose runs all carry a resolved category,
the category-consistency check emits exactly one finding, INVALID when some
run resolved INVALID, else OPEN when some run resolved OPEN, else CLOSED. -/
theorem check_runs_valid_trichotomy (runs : List BenchmarkRun)
    (hne : runs ≠ [])
    (hres : ∀ run ∈ runs, run.category ≠ none) :
    ∃ i, check_runs_valid runs = Except.ok (some i)
      ∧ i.validation =
          (if (runs.map (fun run => run.category)).contains
              (some PARAM_VALIDATION.INVALID) then PARAM_VALIDATION.INVALID
           else if (runs.map (fun run => run.category)).contains
              (some PARAM_VALIDATION.OPEN) then PARAM_VALIDATION.OPEN
           else PARAM_VALIDATION.CLOSED) := by
  have hcat_res : ∀ c ∈ runs.map (fun run => run.category), c ≠ none := by
    intro c hc
    obtain ⟨run, hrun, hrc⟩ := List.mem_map.mp hc
    rw [← hrc]
    exact hres run hrun
  have hdres : ∀ c ∈ (runs.map (fun run => run.category)).dedup, c ≠ none :=
    fun c hc => hcat_res c (List.mem_dedup.mp hc)
  obtain ⟨s, hs⟩ := set_value_upper_ok _ hdres
  unfold check_runs_valid
  by_cases hinv : (some PARAM_VALIDATION.INVALID) ∈ runs.map (fun run => run.category)
  · have hd : ((runs.map (fun run => run.category)).dedup).contains
        (some PARAM_VALIDATION.INVALID) = true :=
      List.elem_iff.mpr (List.mem_dedup.mpr hinv)
    simp only [hd, if_true, hs]
    exact ⟨_, rfl, by simp [hinv]⟩
  · by_cases hop : (some PARAM_VALIDATION.OPEN) ∈ runs.map (fun run => run.category)
    · have hdinv : ((runs.map (fun run => run.category)).dedup).contains
          (some PARAM_VALIDATION.INVALID) = false := by
        simp [List.mem_dedup, hinv]
      have hdop : ((runs.map (fun run => run.category)).dedup).contains
          (some PARAM_VALIDATION.OPEN) = true :=
        List.elem_iff.mpr (List.mem_dedup.mpr hop)
      simp only [hdinv, hdop, Bool.false_eq_true, if_false, if_true, hs]
      exact ⟨_, rfl, by simp [hinv, hop]⟩
    · have hall : ∀ c ∈ runs.map (fun run => run.category),
          c = some PARAM_VALIDATION.CLOSED := by
        intro c hc
        have h1 : c ≠ none := hcat_res c hc
        cases c with
        | none => exact absurd rfl h1
        | some v =>
          cases v with
          | CLOSED => rfl
          | OPEN => exact absurd hc (by simpa using hop)
          | INVALID => exact absurd hc (by simpa using hinv)
      have hcne : runs.map (fun run => run.category) ≠ [] := by
        simpa using hne
      have hded : (runs.map (fun run => run.category)).dedup
          = [some PARAM_VALIDATION.CLOSED] :=
        dedup_of_all_eq _ (some PARAM_VALIDATION.CLOSED) hcne hall
      refine ⟨{ validation := PARAM_VALIDATION.CLOSED
                message := "All runs satisfy the CLOSED category"
                parameter := some "category"
                expected := some "OPEN or CLOSED"
                actual := some (toString ["CLOSED"]) }, ?_, by simp [hinv, hop]⟩
      simp only [hded]
      rfl

theorem check_runs_valid_trichotomy_witness :
    ∃ i, check_runs_valid
        [{ benchmark_type := BENCHMARK_TYPES.checkpointing
           category := some PARAM_VALIDATION.CLOSED },
         { benchmark_type := BENCHMARK_TYPES.checkpointing
           category := some PARAM_VALIDATION.OPEN }] = Except.ok (some i)
      ∧ i.validation =
          (if (([{ benchmark_type := BENCHMARK_TYPES.checkpointing
                   category := some PARAM_VALIDATION.CLOSED },
                 { benchmark_type := BENCHMARK_TYPES.checkpointing
                   category := some PARAM_VALIDATION.OPEN }] : List BenchmarkRun).map
                (fun run => run.category)).contains
              (some PARAM_VALIDATION.INVALID) then PARAM_VALIDATION.INVALID
           else if (([{ benchmark_type := BENCHMARK_TYPES.checkpointing
                        category := some PARAM_VALIDATION.CLOSED },
                      { benchmark_type := BENCHMARK_TYPES.checkpointing
                        category := some PARAM_VALIDATION.OPEN }] : List BenchmarkRun).map
                (fun run => run.category)).contains
              (some PARAM_VALIDATION.OPEN) then PARAM_VALIDATION.OPEN
           else PARAM_VALIDATION.CLOSED) :=
  check_runs_valid_trichotomy _ (List.cons_ne_nil _ _) (by decide)

/-- C10: for every run whose benchmark type is checkpointing, single-mode
verification returns CLOSED and writes an empty finding list (and the CLOSED
category) back onto the run: the checkpointing checker's only check method
returns no findings, and the precedence reduction of the empty list is
CLOSED. -/
theorem verify_single_checkpointing_closed (run : BenchmarkRun)
    (h : run.benchmark_type = BENCHMARK_TYPES.checkpointing) :
    verify_single run
      = Except.ok (PARAM_VALIDATION.CLOSED,
          { run with issues := [], category := some PARAM_VALIDATION.CLOSED }) := by
  unfold verify_single single_run_named_checks
  rw [h]
  rfl

theorem verify_single_checkpointing_closed_witness :
    verify_single { benchmark_type := BENCHMARK_TYPES.checkpointing }
      = Except.ok (PARAM_VALIDATION.CLOSED,
          { ({ benchmark_type := BENCHMARK_TYPES.checkpointing } : BenchmarkRun) with
            issues := [], category := some PARAM_VALIDATION.CLOSED }) :=
  verify_single_checkpointing_closed
    { benchmark_type := BENCHMARK_TYPES.checkpointing } rfl

end MLPStorage
